import Mathlib

/-!
# DynamicTypeSupport.cpp: dynamic samples and dynamic type support

A shallow embedding of `dds/DCPS/XTypes/DynamicTypeSupport.cpp`.

* Methods that modify the serializer or the sample are functions that return
  the new state next to the C++ return value.
* An out-parameter (`size_t& count`, `Extensibility& ext`) is a function from
  the value the variable holds before the call to the return code and the value
  it holds after the call.
* The global `log_level` is an explicit argument, and an `ACE_ERROR` call is the
  flag `error_logged` of the result.
* Types and functions that the file uses but that are declared in other headers
  (`Sample`, `Serializer`, `Encoding`, `DynamicData`, `DynamicType`, the helpers
  of `Utils.h`) are either arguments of the embedded functions or definitions
  whose comment starts with "Modelled from the spec:".
-/

/-! ## Types declared outside the file -/

namespace DDS

/-- Return codes of the DDS API (`DDS::ReturnCode_t` is a 32-bit integer). -/
abbrev ReturnCode_t := Int

/-- Constant `DDS::RETCODE_OK`. -/
def RETCODE_OK : ReturnCode_t := 0

/-- Constant `DDS::RETCODE_ERROR`. -/
def RETCODE_ERROR : ReturnCode_t := 1

end DDS

namespace OpenDDS

namespace DCPS

/-- Extensibility kinds, in the order FINAL < APPENDABLE < MUTABLE (spec section 3). -/
inductive Extensibility where
  | FINAL
  | APPENDABLE
  | MUTABLE
  deriving DecidableEq, Repr

/-- Position of an extensibility kind in the order FINAL < APPENDABLE < MUTABLE. -/
def Extensibility.rank : Extensibility → Nat
  | .FINAL => 0
  | .APPENDABLE => 1
  | .MUTABLE => 2

instance : LE Extensibility := ⟨fun a b => a.rank ≤ b.rank⟩

instance (a b : Extensibility) : Decidable (a ≤ b) :=
  inferInstanceAs (Decidable (a.rank ≤ b.rank))

/-- The more permissive of two extensibility kinds. -/
def Extensibility.max (a b : Extensibility) : Extensibility :=
  if a.rank ≤ b.rank then b else a

/-- Log levels of `dds/DCPS/debug.h`, from the quietest to the most verbose. -/
inductive LogLevel where
  | None
  | Error
  | Warning
  | Notice
  | Info
  | Debug
  deriving DecidableEq, Repr

/-- Numeric value of a log level; `log_level >= LogLevel::Error` compares these. -/
def LogLevel.toNat : LogLevel → Nat
  | .None => 0
  | .Error => 1
  | .Warning => 2
  | .Notice => 3
  | .Info => 4
  | .Debug => 5

/-- Modelled from the spec: the wire representations that can be passed to
encode and decode, "enumerated as PLAIN_CDR, PLAIN_CDR2/XCDR2" (section 6). The
declaration of `Encoding` is in `Serializer.h`. -/
inductive EncodingKind where
  | PLAIN_CDR
  | XCDR2
  deriving DecidableEq, Repr

/-- Modelled from the spec: an encoding is a wire representation with a
"configurable endianness" (section 6). -/
structure Encoding where
  kind : EncodingKind
  little_endian : Bool
  deriving DecidableEq, Repr

/-- Modelled from the spec: the "byte buffer abstraction" of section 6, declared
in `Serializer.h`. `buffer` holds the bytes written so far, `rpos` is the read
position and `good_bit` is cleared by a failed read or write. -/
structure Serializer where
  encoding : Encoding
  buffer : List Nat
  rpos : Nat
  good_bit : Bool
  deriving DecidableEq, Repr

end DCPS

namespace XTypes

open DCPS

/-- Kinds of types (spec section 3, TypeDescriptor). -/
inductive TypeKind where
  | struct
  | union
  | enum
  | sequence
  | array
  | map
  | primitive
  | string
  deriving DecidableEq, Repr

/-- Modelled from the spec: the part of a MemberDescriptor that does not refer to
another type: name, member id and the flags key, optional and must_understand
(section 3). -/
structure MemberInfo where
  name : String
  id : Nat
  key : Bool
  optional : Bool
  must_understand : Bool
  deriving DecidableEq, Repr

/-- Modelled from the spec: "an ordered list of MemberDescriptors plus a declared
base extensibility and a type kind" (section 3). Each member carries its
declared type. The declaration of `DynamicType` is not in this file. -/
inductive DynamicType where
  | mk (kind : TypeKind) (ext : Extensibility) (members : List (MemberInfo × DynamicType))

/-- Kind of a type. -/
def DynamicType.kind : DynamicType → TypeKind
  | .mk k _ _ => k

/-- Declared (base) extensibility of a type. -/
def DynamicType.ext : DynamicType → Extensibility
  | .mk _ e _ => e

/-- Members of a type with their declared types, in declaration order. -/
def DynamicType.members : DynamicType → List (MemberInfo × DynamicType)
  | .mk _ _ ms => ms

/-- Modelled from the spec: "a tagged variant over primitive scalar kinds,
string/wide-string, nested DynamicData, ordered sequence of Value, fixed-size
array of Value, enum ordinal" (section 3). A float64 is kept as its 64-bit
IEEE 754 pattern, a nested DynamicData as its populated members. -/
inductive Value where
  | bool (b : Bool)
  | integer (n : Int)
  | float64 (bits : Nat)
  | string (s : String)
  | enumeration (ordinal : Nat)
  | sequence (elems : List Value)
  | array (elems : List Value)
  | nested (members : List (Nat × Value))

/-- Modelled from the spec: "a runtime value tree bound to one DynamicType; holds
a mapping from member id to Value for populated members only" (section 3). -/
structure DynamicData where
  type : DynamicType
  values : List (Nat × Value)

mutual
/-- Modelled from the spec: `max_extensibility(DynamicType)` is "the most
permissive value among the type's own declared (base) extensibility and the
max_extensibility of every member's type, computed bottom-up" (section 4.1).
This is the value that `XTypes::max_extensibility` of `Utils.h` computes. -/
def max_extensibility_value : DynamicType → Extensibility
  | .mk _ e ms => max_extensibility_members e ms
/-- Modelled from the spec: folds the max_extensibility of every member's type
into the running maximum `acc`. -/
def max_extensibility_members (acc : Extensibility) :
    List (MemberInfo × DynamicType) → Extensibility
  | [] => acc
  | (_, t) :: rest =>
    max_extensibility_members (Extensibility.max acc (max_extensibility_value t)) rest
end

/-- Modelled from the spec: `extensibility(type, ext)` of `Utils.h`, which is not
part of this file. It gives "the type's own declared (base) extensibility"
(section 4.1) and the spec names no failure for it. -/
def extensibility (type : DynamicType) (_ext : Extensibility) :
    DDS.ReturnCode_t × Extensibility :=
  (DDS.RETCODE_OK, type.ext)

/-- Modelled from the spec: `OpenDDS::XTypes::max_extensibility(type, ext)` of
`Utils.h`, which is not part of this file. The spec gives it the signature
`max_extensibility(DynamicType) -> Extensibility` (section 4.1) and names no
failure for it. -/
def max_extensibility (type : DynamicType) (_ext : Extensibility) :
    DDS.ReturnCode_t × Extensibility :=
  (DDS.RETCODE_OK, max_extensibility_value type)

/-- Modelled from the spec: `get_member(DynamicType, name)` gives the member
descriptor with that name, or nothing when the type has no such member
(section 4.1). -/
def DynamicType.get_member_by_name (t : DynamicType) (name : String) : Option MemberInfo :=
  (t.members.map Prod.fst).find? (fun m => m.name == name)

/-- Mutability of a `Sample` (base class of `DynamicSample`, declared in `Sample.h`). -/
inductive Mutability where
  | Mutable
  | ReadOnly
  deriving DecidableEq, Repr

/-- Modelled from the spec: the extent of a sample is either the full sample or
"key-only mode", in which encode and decode "restrict to members on a KeyPath"
(sections 4.2 and 4.3). -/
inductive Extent where
  | Full
  | KeyOnly
  deriving DecidableEq, Repr

/-- State of a `DynamicSample`: the `mutability_` and `extent_` members of its base
class `Sample` and its own `data_`, a `DynamicData_var` that may be nil. -/
structure DynamicSample where
  mutability_ : Mutability
  extent_ : Extent
  data_ : Option DynamicData

/-- Modelled from the spec: `set_key_only(bool)`, "when true, subsequent
encode/decode restrict to members on a KeyPath" (section 4.2). It is declared in
the header of the class and changes the extent only. -/
def DynamicSample.set_key_only (self : DynamicSample) (k : Bool) : DynamicSample :=
  { self with extent_ := if k then Extent.KeyOnly else Extent.Full }

/-- Whether the sample is in key-only mode. -/
def DynamicSample.key_only (self : DynamicSample) : Bool :=
  self.extent_ == Extent.KeyOnly

/-! ## DynamicSample (lines 21-61 of the source) -/

/-- Copy constructor `DynamicSample::DynamicSample(const DynamicSample& d)`:
`Sample(d.mutability_, d.extent_), data_(d.data_)`. -/
def DynamicSample.copy (d : DynamicSample) : DynamicSample :=
  { mutability_ := d.mutability_, extent_ := d.extent_, data_ := d.data_ }

/-- Copy assignment `DynamicSample::operator=(const DynamicSample& rhs)`: the body
is `//TODO` followed by `return *this;`. The result is the state of `*this` after
the call; `rhs` is a const reference. -/
def DynamicSample.operator_assign (self : DynamicSample) (_rhs : DynamicSample) :
    DynamicSample :=
  self

/-- Outcome of a call that may write to a serializer: the C++ return value and
the serializer afterwards. -/
structure Written where
  result : Bool
  strm : Serializer
  deriving DecidableEq, Repr

/-- Outcome of a call that reads a sample from a serializer: the C++ return value,
the serializer afterwards and the sample afterwards. -/
structure Extracted where
  result : Bool
  strm : Serializer
  sample : DynamicSample

/-- Method `DynamicSample::serialize(DCPS::Serializer& ser) const`:
`ACE_UNUSED_ARG(ser); // TODO` and then `return false;`. -/
def DynamicSample.serialize (_self : DynamicSample) (ser : Serializer) : Written :=
  { result := false, strm := ser }

/-- Method `DynamicSample::deserialize(DCPS::Serializer& ser)`:
`ACE_UNUSED_ARG(ser); // TODO` and then `return false;`. -/
def DynamicSample.deserialize (self : DynamicSample) (ser : Serializer) : Extracted :=
  { result := false, strm := ser, sample := self }

/-- Method `DynamicSample::serialized_size(const DCPS::Encoding& enc) const`:
`ACE_UNUSED_ARG(enc); // TODO` and then `return 0;`. -/
def DynamicSample.serialized_size (_self : DynamicSample) (_enc : Encoding) : Nat :=
  0

/-- Method `DynamicSample::compare(const DCPS::Sample& other) const`:
`ACE_UNUSED_ARG(other); // TODO` and then `return false;`. The other sample is
taken to be a `DynamicSample`. -/
def DynamicSample.compare (_self : DynamicSample) (_other : DynamicSample) : Bool :=
  false

end XTypes

namespace DCPS

open XTypes

/-- Wrapper `KeyOnly<T>` of the serializer framework: it refers to the sample in
`value`. -/
structure KeyOnly (T : Type) where
  value : T

/-- Operator `bool operator>>(Serializer& strm, XTypes::DynamicSample& sample)`:
`return sample.deserialize(strm);`. -/
def operator_extract (strm : Serializer) (sample : DynamicSample) : Extracted :=
  sample.deserialize strm

/-- Operator
`bool operator>>(Serializer& strm, const KeyOnly<XTypes::DynamicSample>& sample)`:
`sample.value.set_key_only(true); return sample.value.deserialize(strm);`. The
field `sample` of the result is the sample that `sample.value` refers to. -/
def operator_extract_KeyOnly (strm : Serializer) (sample : KeyOnly DynamicSample) :
    Extracted :=
  (sample.value.set_key_only true).deserialize strm

/-- Method `MetaStructImpl<XTypes::DynamicSample>::map_name_to_id(const char* field)`:
`//TODO` and then `return 0;`. -/
def MetaStructImpl.map_name_to_id (_field : String) : Nat :=
  0

end DCPS

end OpenDDS

namespace DDS

open OpenDDS OpenDDS.DCPS OpenDDS.XTypes

/-- Value returned by a method together with whether the method wrote an error
line with `ACE_ERROR`. -/
structure Logged (α : Type) where
  value : α
  error_logged : Bool
  deriving DecidableEq, Repr

/-- State of a `DynamicTypeSupport` that the methods below read: `type_`. -/
structure DynamicTypeSupport where
  type_ : DynamicType

/-- Method `DynamicTypeSupport::key_count() const`. The argument `xtypes_key_count`
stands for `OpenDDS::XTypes::key_count(type_, count)` of `Utils.h`: from the type
and the value of `count` before the call it gives the return code and the value
of `count` after the call. -/
def DynamicTypeSupport.key_count
    (xtypes_key_count : DynamicType → Nat → ReturnCode_t × Nat)
    (self : DynamicTypeSupport) (log_level : LogLevel) : Logged Nat :=
  let count : Nat := 0
  let out := xtypes_key_count self.type_ count
  let rc := out.1
  let count := out.2
  { value := count
    error_logged := decide (rc ≠ RETCODE_OK) && decide (LogLevel.Error.toNat ≤ log_level.toNat) }

/-- Method `DynamicTypeSupport::base_extensibility() const`. The argument
`xtypes_extensibility` stands for `extensibility(type_, ext)` of `Utils.h`. -/
def DynamicTypeSupport.base_extensibility
    (xtypes_extensibility : DynamicType → Extensibility → ReturnCode_t × Extensibility)
    (self : DynamicTypeSupport) (log_level : LogLevel) : Logged Extensibility :=
  let ext : Extensibility := Extensibility.FINAL
  let out := xtypes_extensibility self.type_ ext
  let rc := out.1
  let ext := out.2
  { value := ext
    error_logged := decide (rc ≠ RETCODE_OK) && decide (LogLevel.Error.toNat ≤ log_level.toNat) }

/-- Method `DynamicTypeSupport::max_extensibility() const`. The argument
`xtypes_max_extensibility` stands for
`OpenDDS::XTypes::max_extensibility(type_, ext)` of `Utils.h`. -/
def DynamicTypeSupport.max_extensibility
    (xtypes_max_extensibility : DynamicType → Extensibility → ReturnCode_t × Extensibility)
    (self : DynamicTypeSupport) (log_level : LogLevel) : Logged Extensibility :=
  let ext : Extensibility := Extensibility.FINAL
  let out := xtypes_max_extensibility self.type_ ext
  let rc := out.1
  let ext := out.2
  { value := ext
    error_logged := decide (rc ≠ RETCODE_OK) && decide (LogLevel.Error.toNat ≤ log_level.toNat) }

/-! ## Inputs used to evaluate the code -/

/-- A behaviour that `OpenDDS::XTypes::key_count` can have: a union is rejected
with `RETCODE_ERROR` and `count` is not written; any other type has no keys. -/
def key_count_rejecting_unions (type : DynamicType) (count : Nat) : ReturnCode_t × Nat :=
  if type.kind = TypeKind.union then (RETCODE_ERROR, count) else (RETCODE_OK, 0)

/-- The primitive type float64. -/
def float64_type : DynamicType :=
  .mk .primitive .FINAL []

/-- The type `Point { x: float64 (key); y: float64 (key) }`, extensibility FINAL. -/
def point_type : DynamicType :=
  .mk .struct .FINAL
    [ (⟨"x", 0, true, false, false⟩, float64_type),
      (⟨"y", 1, true, false, false⟩, float64_type) ]

/-- A Point with x = 1.0 and y = 2.0 (IEEE 754 patterns 0x3FF0000000000000 and
0x4000000000000000). -/
def point_sample : DynamicSample :=
  { mutability_ := .Mutable
    extent_ := .Full
    data_ := some { type := point_type
                    values := [(0, .float64 0x3FF0000000000000),
                               (1, .float64 0x4000000000000000)] } }

/-- A Point with every member absent. -/
def empty_point_sample : DynamicSample :=
  { mutability_ := .Mutable
    extent_ := .Full
    data_ := some { type := point_type, values := [] } }

/-- A union with one member that is marked key. -/
def keyed_member_union : DynamicType :=
  .mk .union .FINAL [(⟨"a", 1, true, false, false⟩, float64_type)]

/-- A structure without key members. -/
def keyless_struct : DynamicType :=
  .mk .struct .FINAL [(⟨"a", 0, false, false, false⟩, float64_type)]

/-- A FINAL structure with a MUTABLE member inside an APPENDABLE member. -/
def nested_type : DynamicType :=
  .mk .struct .FINAL
    [ (⟨"a", 0, false, false, false⟩,
        .mk .struct .APPENDABLE [(⟨"b", 0, false, false, false⟩, .mk .struct .MUTABLE [])]) ]

/-- A MUTABLE structure with one member. -/
def mutable_struct : DynamicType :=
  .mk .struct .MUTABLE [(⟨"a", 0, false, false, false⟩, float64_type)]

/-- A behaviour that `extensibility` and `OpenDDS::XTypes::max_extensibility` of
`Utils.h` can have: the call fails with `RETCODE_ERROR` and `ext` is not written. -/
def failing_without_writing (_type : DynamicType) (ext : Extensibility) :
    ReturnCode_t × Extensibility :=
  (RETCODE_ERROR, ext)

/-- An empty serializer that uses little-endian XCDR2. -/
def empty_serializer : Serializer :=
  { encoding := { kind := .XCDR2, little_endian := true }
    buffer := []
    rpos := 0
    good_bit := true }

/-- A serializer that holds the 16 bytes of the Point (1.0, 2.0) in little-endian
XCDR2. -/
def point_serializer : Serializer :=
  { encoding := { kind := .XCDR2, little_endian := true }
    buffer := [0, 0, 0, 0, 0, 0, 0xF0, 0x3F, 0, 0, 0, 0, 0, 0, 0, 0x40]
    rpos := 0
    good_bit := true }

end DDS

/-! ## Properties -/

open OpenDDS OpenDDS.DCPS OpenDDS.XTypes DDS

/-- Every call of `serialize` reports failure and leaves the serializer as it was. -/
theorem serialize_eq (d : DynamicSample) (ser : Serializer) :
    d.serialize ser = { result := false, strm := ser } :=
  rfl

/-- Every call of `deserialize` reports failure and leaves the serializer and the
sample as they were. -/
theorem deserialize_eq (d : DynamicSample) (ser : Serializer) :
    d.deserialize ser = { result := false, strm := ser, sample := d } :=
  rfl

/-- Every call of `compare` returns false. -/
theorem compare_eq_false (d other : DynamicSample) : d.compare other = false :=
  rfl

/-- Copy assignment leaves the target as it was, for every target and source. -/
theorem operator_assign_eq (a b : DynamicSample) : a.operator_assign b = a :=
  rfl

/-- Every field name is mapped to 0. -/
theorem map_name_to_id_eq (field : String) : MetaStructImpl.map_name_to_id field = 0 :=
  rfl

/-- The max_extensibility of a FINAL structure that holds a MUTABLE structure inside
an APPENDABLE member is MUTABLE, and its base extensibility is FINAL. -/
theorem nested_type_extensibility :
    (DynamicTypeSupport.max_extensibility XTypes.max_extensibility ⟨nested_type⟩
        LogLevel.Error).value = Extensibility.MUTABLE ∧
    (DynamicTypeSupport.base_extensibility XTypes.extensibility ⟨nested_type⟩
        LogLevel.Error).value = Extensibility.FINAL := by
  decide

/-- When the underlying extensibility computation fails without writing `ext`,
`base_extensibility()` returns FINAL and logs the failure at level Error but not
at level None. -/
theorem base_extensibility_of_failed_computation :
    DynamicTypeSupport.base_extensibility failing_without_writing ⟨mutable_struct⟩
        LogLevel.Error = { value := Extensibility.FINAL, error_logged := true } ∧
    DynamicTypeSupport.base_extensibility failing_without_writing ⟨mutable_struct⟩
        LogLevel.None = { value := Extensibility.FINAL, error_logged := false } := by
  decide

/-! ### Serialization of a DynamicSample -/

/-- C1, evaluated on the Point (1.0, 2.0): `serialize` returns false and writes no
byte; `deserialize` into a Point with every member absent returns false as well,
even from a serializer that holds the 16 bytes of the Point, and leaves the
members absent; `compare` of that sample with the Point returns false. -/
theorem C1_round_trip_of_point_fails :
    (point_sample.serialize empty_serializer).result = false ∧
    (point_sample.serialize empty_serializer).strm.buffer = [] ∧
    (empty_point_sample.deserialize point_serializer).result = false ∧
    ((empty_point_sample.deserialize point_serializer).sample.data_.map
        (fun d => d.values.length)) = some 0 ∧
    (empty_point_sample.deserialize point_serializer).sample.compare point_sample = false :=
  ⟨rfl, rfl, rfl, rfl, rfl⟩

/-- C2: for every sample and every serializer, the bytes that `serialize` appends
to the buffer of the serializer are as many as `serialized_size` returns for the
encoding of that serializer. `serialized_size` has no serializer among its
arguments, so it writes nothing. -/
theorem C2_serialized_size_is_bytes_written (d : DynamicSample) (ser : Serializer) :
    ∃ written : List Nat,
      (d.serialize ser).strm.buffer = ser.buffer ++ written ∧
      written.length = d.serialized_size ser.encoding :=
  ⟨[], by simp [DynamicSample.serialize], rfl⟩

/-- C3, evaluated on the Point (1.0, 2.0) of the FINAL type Point:
`serialize` returns false and `serialized_size` returns 0, not 16. -/
theorem C3_point_is_not_serialized :
    point_type.ext = Extensibility.FINAL ∧
    (point_sample.serialize empty_serializer).result = false ∧
    point_sample.serialized_size empty_serializer.encoding = 0 ∧
    point_sample.serialized_size empty_serializer.encoding ≠ 16 := by
  refine ⟨rfl, rfl, rfl, ?_⟩
  decide

/-- C4, evaluated on Points: `compare` returns false for a sample and itself, for
a sample and its copy, and for two samples with every member absent. -/
theorem C4_compare_returns_false :
    point_sample.compare point_sample = false ∧
    point_sample.compare point_sample.copy = false ∧
    empty_point_sample.compare empty_point_sample.copy = false :=
  ⟨rfl, rfl, rfl⟩

/-! ### Keys and extensibility of a DynamicTypeSupport -/

/-- C5 is false as stated: the underlying computation fails for the union and
succeeds with zero keys for the structure, and `key_count` gives the caller the
same result in both cases, 0 and no log line at level None, and the same count 0
at level Debug. -/
theorem C5_failure_is_not_distinguishable :
    (key_count_rejecting_unions keyed_member_union 0).1 ≠ RETCODE_OK ∧
    (key_count_rejecting_unions keyless_struct 0).1 = RETCODE_OK ∧
    DynamicTypeSupport.key_count key_count_rejecting_unions ⟨keyed_member_union⟩ LogLevel.None
      = DynamicTypeSupport.key_count key_count_rejecting_unions ⟨keyless_struct⟩ LogLevel.None ∧
    (DynamicTypeSupport.key_count key_count_rejecting_unions ⟨keyed_member_union⟩
        LogLevel.Debug).value
      = (DynamicTypeSupport.key_count key_count_rejecting_unions ⟨keyless_struct⟩
        LogLevel.Debug).value := by
  decide

/-- C5 as amended: `key_count` returns the count that the underlying computation
leaves in `count` (which starts at 0), whatever the return code; a return code
other than RETCODE_OK is reported by an error log line exactly when the log level
is at least Error. -/
theorem C5_key_count_returns_count_and_logs
    (h : DynamicType → Nat → ReturnCode_t × Nat)
    (self : DynamicTypeSupport) (lvl : LogLevel) :
    (DynamicTypeSupport.key_count h self lvl).value = (h self.type_ 0).2 ∧
    ((DynamicTypeSupport.key_count h self lvl).error_logged = true ↔
      ((h self.type_ 0).1 ≠ RETCODE_OK ∧ LogLevel.Error.toNat ≤ lvl.toNat)) := by
  refine ⟨rfl, ?_⟩
  simp [DynamicTypeSupport.key_count]

/-- C7: when an extraction into a sample returns false, the data of the sample
afterwards is the data it held before, for the plain operator and for the
KeyOnly operator. -/
theorem C7_failed_extraction_keeps_data (strm : Serializer) (s : DynamicSample) :
    ((operator_extract strm s).result = false →
      (operator_extract strm s).sample.data_ = s.data_) ∧
    ((operator_extract_KeyOnly strm ⟨s⟩).result = false →
      (operator_extract_KeyOnly strm ⟨s⟩).sample.data_ = s.data_) :=
  ⟨fun _ => rfl, fun _ => rfl⟩

/-- C7 on the Point (1.0, 2.0) and a serializer that holds 16 bytes: both
extractions fail and the data is kept. -/
theorem C7_failed_extraction_keeps_data_witness :
    (operator_extract point_serializer point_sample).result = false ∧
    (operator_extract point_serializer point_sample).sample.data_ = point_sample.data_ ∧
    (operator_extract_KeyOnly point_serializer ⟨point_sample⟩).result = false ∧
    (operator_extract_KeyOnly point_serializer ⟨point_sample⟩).sample.data_
      = point_sample.data_ :=
  ⟨rfl, (C7_failed_extraction_keeps_data point_serializer point_sample).1 rfl,
   rfl, (C7_failed_extraction_keeps_data point_serializer point_sample).2 rfl⟩

/-- C9: the KeyOnly operator returns what `deserialize` returns after
`set_key_only(true)` and leaves the sample as `set_key_only(true)` made it, in
key-only mode; the plain operator returns what `deserialize` returns and leaves
the sample, its extent included, as it was. Both leave the serializer as
`deserialize` leaves it. -/
theorem C9_key_only_extraction (strm : Serializer) (s : DynamicSample) :
    (operator_extract_KeyOnly strm ⟨s⟩).result
      = ((s.set_key_only true).deserialize strm).result ∧
    (operator_extract_KeyOnly strm ⟨s⟩).strm = ((s.set_key_only true).deserialize strm).strm ∧
    (operator_extract_KeyOnly strm ⟨s⟩).sample = s.set_key_only true ∧
    (operator_extract_KeyOnly strm ⟨s⟩).sample.key_only = true ∧
    (operator_extract strm s).result = (s.deserialize strm).result ∧
    (operator_extract strm s).strm = (s.deserialize strm).strm ∧
    (operator_extract strm s).sample.extent_ = s.extent_ ∧
    (operator_extract strm s).sample.key_only = s.key_only :=
  ⟨rfl, rfl, rfl, rfl, rfl, rfl, rfl, rfl⟩

/-! ### Name resolution and copy assignment -/

/-- C8, evaluated on the type Point: "z" names no member and "x" names the member
with id 0, and `map_name_to_id` returns 0 for both. -/
theorem C8_map_name_to_id_of_missing_field :
    point_type.get_member_by_name "z" = none ∧
    (point_type.get_member_by_name "x").map MemberInfo.id = some 0 ∧
    MetaStructImpl.map_name_to_id "z" = 0 ∧
    MetaStructImpl.map_name_to_id "z" = MetaStructImpl.map_name_to_id "x" := by
  refine ⟨?_, ?_, rfl, rfl⟩
  · decide
  · decide

/-- C10, evaluated on a Point with every member absent as target and the Point
(1.0, 2.0) as source: after the assignment the target is as it was, and its data
is not the data that the copy constructor takes from the source. -/
theorem C10_assignment_keeps_target :
    empty_point_sample.operator_assign point_sample = empty_point_sample ∧
    (empty_point_sample.operator_assign point_sample).data_ ≠ point_sample.copy.data_ ∧
    point_sample.copy.data_ = point_sample.data_ := by
  refine ⟨rfl, ?_, rfl⟩
  simp [DynamicSample.operator_assign, DynamicSample.copy, empty_point_sample, point_sample]
